import Mathlib

/-!
Shallow embedding of the financial-analysis pipeline:
agents/researcher_agent.py, agents/data_analyst_agent.py,
utils/fetch_stock_data.py, utils/pdf_generator.py,
utils/sentiment_analysis.py and orchestrator.py.

Python floats are modelled as exact rationals (reals where a square root
appears); Python dicts with a fixed key set are modelled as structures with
Option fields for keys that may be absent or NaN; exceptions are modelled
with Except.
-/

namespace FinAgent

/-! ### Sentiment data model (utils/sentiment_analysis.py, researcher_agent.py) -/

/-- Rounding to four decimal places, modelling the Python round(x, 4) calls
(Python uses banker rounding on binary floats; over exact rationals we use
round-half-up, which agrees except on exact ties). -/
def round4 (q : ℚ) : ℚ := (round (q * 10000) : ℤ) / 10000

/-- The sentiment dict attached to a news item. simple_sentiment always
produces both keys, but analyze_sentiment_summary defends against missing
keys with .get defaults, so both fields are optional here. -/
structure SentimentInfo where
  label : Option String
  polarity : Option ℚ
deriving DecidableEq

/-- A news item as built by ResearcherAgent (title, url, sentiment; the other
keys play no role in the claims). The sentiment dict itself may be absent. -/
structure NewsItem where
  title : Option String
  url : Option String
  sentiment : Option SentimentInfo
deriving DecidableEq

/-- The aggregate sentiment dict returned by analyze_sentiment_summary,
with the key set of the source: count, positive, negative, neutral,
avg_polarity. -/
structure SentimentSummary where
  count : Nat
  positive : Nat
  negative : Nat
  neutral : Nat
  avg_polarity : ℚ
deriving DecidableEq

/-- item.get("sentiment", \x7b\x7d).get("label", "neutral") -/
def itemLabel (item : NewsItem) : String :=
  match item.sentiment with
  | none => "neutral"
  | some s => s.label.getD "neutral"

/-- item.get("sentiment", \x7b\x7d).get("polarity", 0.0) -/
def itemPolarity (item : NewsItem) : ℚ :=
  match item.sentiment with
  | none => 0
  | some s => s.polarity.getD 0

/-- One iteration of the counting loop of analyze_sentiment_summary; the
accumulator is (pos, neg, neu, total_p). -/
def sentimentFold (acc : Nat × Nat × Nat × ℚ) (item : NewsItem) : Nat × Nat × Nat × ℚ :=
  let lab := itemLabel item
  let pol := itemPolarity item
  let withP : Nat × Nat × Nat × ℚ := (acc.1, acc.2.1, acc.2.2.1, acc.2.2.2 + pol)
  if lab = "positive" then (withP.1 + 1, withP.2.1, withP.2.2.1, withP.2.2.2)
  else if lab = "negative" then (withP.1, withP.2.1 + 1, withP.2.2.1, withP.2.2.2)
  else (withP.1, withP.2.1, withP.2.2.1 + 1, withP.2.2.2)

/-- ResearcherAgent.analyze_sentiment_summary. -/
def analyze_sentiment_summary (news_items : List NewsItem) : SentimentSummary :=
  if news_items = [] then ⟨0, 0, 0, 0, 0⟩
  else
    let r := news_items.foldl sentimentFold (0, 0, 0, 0)
    ⟨news_items.length, r.1, r.2.1, r.2.2.1,
      round4 (r.2.2.2 / max 1 (news_items.length : ℚ))⟩

lemma sentimentFold_counts (items : List NewsItem) (acc : Nat × Nat × Nat × ℚ) :
    (items.foldl sentimentFold acc).1 + (items.foldl sentimentFold acc).2.1
      + (items.foldl sentimentFold acc).2.2.1
      = acc.1 + acc.2.1 + acc.2.2.1 + items.length := by
  induction items generalizing acc with
  | nil => simp
  | cons it rest ih =>
    simp only [List.foldl_cons, List.length_cons]
    rw [ih]
    unfold sentimentFold
    by_cases h1 : itemLabel it = "positive" <;> by_cases h2 : itemLabel it = "negative" <;>
      simp [h1, h2] <;> omega

/-- C8: for every list of news items, including items whose sentiment dict or
its label or polarity keys are missing, the counts of the summary partition
the items: positive + negative + neutral = count = length of the input. -/
theorem c8_sentiment_counts_partition (items : List NewsItem) :
    (analyze_sentiment_summary items).positive + (analyze_sentiment_summary items).negative
        + (analyze_sentiment_summary items).neutral
      = (analyze_sentiment_summary items).count
    ∧ (analyze_sentiment_summary items).count = items.length := by
  by_cases h : items = []
  · subst h; simp [analyze_sentiment_summary]
  · constructor
    · simp only [analyze_sentiment_summary, if_neg h]
      simpa using sentimentFold_counts items (0, 0, 0, 0)
    · simp [analyze_sentiment_summary, if_neg h]

/-! ### clean_text (utils/pdf_generator.py)

Every pattern of the replacement table is a single (non-ASCII) character and
every replacement is a short plain-ASCII string, so Python str.replace with
such a pattern is a pointwise character expansion; clean_text is the left
fold of the fourteen passes in source order. Strings are modelled as lists of
characters. -/

/-- ASCII double quote. -/
def quoteChar : Char := Char.ofNat 34

/-- ASCII apostrophe. -/
def aposChar : Char := Char.ofNat 39

/-- The replacement table of clean_text, in source order. -/
def replacements : List (Char × List Char) :=
  [('–', ['-']), ('—', ['-']), ('•', ['*']), ('…', ['.', '.', '.']),
   ('“', [quoteChar]), ('”', [quoteChar]), ('‘', [aposChar]), ('’', [aposChar]),
   ('○', ['o']),
   ('→', ['-', '>']), ('←', ['<', '-']), ('↔', ['<', '-', '>']),
   ('⇒', ['=', '>']), ('⇐', ['<', '='])]

/-- The fourteen single characters that the table replaces. -/
def tableChars : List Char :=
  ['–', '—', '•', '…', '“', '”', '‘', '’', '○', '→', '←', '↔', '⇒', '⇐']

/-- One pass text.replace(b, g) for a single-character pattern b. -/
def replaceChar (b : Char) (g : List Char) : List Char → List Char
  | [] => []
  | c :: rest => (if c = b then g else [c]) ++ replaceChar b g rest

/-- clean_text on character lists: apply every replacement of the table in
source order. -/
def cleanTextL (l : List Char) : List Char :=
  replacements.foldl (fun acc p => replaceChar p.1 p.2 acc) l

/-- clean_text of pdf_generator.py. -/
def clean_text (s : String) : String := (cleanTextL s.toList).asString

/-- The pointwise substitution induced by the table: a pattern character maps
to its replacement, any other character maps to itself. -/
def subChar (c : Char) : List Char :=
  if c = '–' then ['-'] else if c = '—' then ['-']
  else if c = '•' then ['*'] else if c = '…' then ['.', '.', '.']
  else if c = '“' then [quoteChar] else if c = '”' then [quoteChar]
  else if c = '‘' then [aposChar] else if c = '’' then [aposChar]
  else if c = '○' then ['o']
  else if c = '→' then ['-', '>'] else if c = '←' then ['<', '-']
  else if c = '↔' then ['<', '-', '>']
  else if c = '⇒' then ['=', '>'] else if c = '⇐' then ['<', '=']
  else [c]

/-- Pointwise expansion of a character list by a substitution. -/
def expand (f : Char → List Char) : List Char → List Char
  | [] => []
  | c :: rest => f c ++ expand f rest

lemma replaceChar_append (b : Char) (g : List Char) (x y : List Char) :
    replaceChar b g (x ++ y) = replaceChar b g x ++ replaceChar b g y := by
  induction x with
  | nil => rfl
  | cons c rest ih => simp [replaceChar, ih]

lemma foldReplace_append (tbl : List (Char × List Char)) (x y : List Char) :
    tbl.foldl (fun acc p => replaceChar p.1 p.2 acc) (x ++ y)
      = tbl.foldl (fun acc p => replaceChar p.1 p.2 acc) x
        ++ tbl.foldl (fun acc p => replaceChar p.1 p.2 acc) y := by
  induction tbl generalizing x y with
  | nil => rfl
  | cons p rest ih =>
    simp only [List.foldl_cons]
    rw [replaceChar_append, ih]

lemma foldReplace_nil (tbl : List (Char × List Char)) :
    tbl.foldl (fun acc p => replaceChar p.1 p.2 acc) [] = [] := by
  induction tbl with
  | nil => rfl
  | cons p rest ih => simpa [replaceChar] using ih

lemma cleanTextL_append (x y : List Char) :
    cleanTextL (x ++ y) = cleanTextL x ++ cleanTextL y :=
  foldReplace_append replacements x y

lemma subChar_of_not_table (c : Char) (h : c ∉ tableChars) : subChar c = [c] := by
  simp only [tableChars, List.mem_cons, List.not_mem_nil, or_false, not_or] at h
  obtain ⟨h1, h2, h3, h4, h5, h6, h7, h8, h9, h10, h11, h12, h13, h14⟩ := h
  simp [subChar, h1, h2, h3, h4, h5, h6, h7, h8, h9, h10, h11, h12, h13, h14]

lemma cleanTextL_single (c : Char) : cleanTextL [c] = subChar c := by
  by_cases hc : c ∈ tableChars
  · simp only [tableChars, List.mem_cons, List.not_mem_nil, or_false] at hc
    rcases hc with h | h | h | h | h | h | h | h | h | h | h | h | h | h <;> subst h <;> decide
  · rw [subChar_of_not_table c hc]
    simp only [tableChars, List.mem_cons, List.not_mem_nil, or_false, not_or] at hc
    obtain ⟨h1, h2, h3, h4, h5, h6, h7, h8, h9, h10, h11, h12, h13, h14⟩ := hc
    simp [cleanTextL, replacements, replaceChar, h1, h2, h3, h4, h5, h6, h7,
      h8, h9, h10, h11, h12, h13, h14]

lemma cleanTextL_eq_expand (l : List Char) : cleanTextL l = expand subChar l := by
  induction l with
  | nil => exact foldReplace_nil replacements
  | cons c rest ih =>
    have : cleanTextL (c :: rest) = cleanTextL [c] ++ cleanTextL rest := by
      simpa using cleanTextL_append [c] rest
    rw [this, cleanTextL_single, ih]
    rfl

lemma expand_append (f : Char → List Char) (x y : List Char) :
    expand f (x ++ y) = expand f x ++ expand f y := by
  induction x with
  | nil => rfl
  | cons c rest ih => simp [expand, ih]

/-- Expanding the replacement of a single character is a fixed point:
replacement strings contain no pattern character, and a character outside the
table maps to itself. -/
lemma expand_subChar_subChar (c : Char) : expand subChar (subChar c) = subChar c := by
  by_cases hc : c ∈ tableChars
  · simp only [tableChars, List.mem_cons, List.not_mem_nil, or_false] at hc
    rcases hc with h | h | h | h | h | h | h | h | h | h | h | h | h | h <;> subst h <;> decide
  · rw [subChar_of_not_table c hc]
    show subChar c ++ [] = [c]
    rw [subChar_of_not_table c hc]
    rfl

lemma expand_subChar_idem (l : List Char) :
    expand subChar (expand subChar l) = expand subChar l := by
  induction l with
  | nil => rfl
  | cons c rest ih =>
    show expand subChar (subChar c ++ expand subChar rest) = _
    rw [expand_append, expand_subChar_subChar, ih]
    rfl

lemma string_toList_asString (l : List Char) : (List.asString l).toList = l := rfl

/-- C9: clean_text is idempotent: a second application changes nothing,
because every replacement string is plain ASCII and every pattern is a
non-ASCII character, so a first pass removes all patterns without
introducing new ones. -/
theorem c9_clean_text_idempotent (s : String) :
    clean_text (clean_text s) = clean_text s := by
  unfold clean_text
  rw [string_toList_asString]
  rw [cleanTextL_eq_expand s.toList, cleanTextL_eq_expand, expand_subChar_idem]

/-- C10: clean_text is exactly the pointwise expansion by the replacement
table: each character is substituted independently and in place, and every
character outside the fourteen-entry table (for example the accented letter
in a word such as cafe with an acute accent) passes through unchanged at its
position in the expansion. -/
theorem c10_clean_text_pointwise (s : String) :
    clean_text s = (expand subChar s.toList).asString
    ∧ ∀ c : Char, c ∉ tableChars → subChar c = [c] := by
  constructor
  · unfold clean_text
    rw [cleanTextL_eq_expand]
  · exact fun c hc => subChar_of_not_table c hc

/-- Witness for C10 at a concrete string containing an accented letter. -/
theorem c10_witness :
    clean_text "café—test" = (expand subChar ("café—test").toList).asString
    ∧ subChar 'é' = ['é'] :=
  ⟨(c10_clean_text_pointwise "café—test").1,
   (c10_clean_text_pointwise "café—test").2 'é' (by decide)⟩

/-! ### Report body rendering (PDFGenerator.generate_pdf) -/

/-- Python line.strip(): drop leading and trailing whitespace. -/
def stripL (l : List Char) : List Char :=
  ((l.dropWhile Char.isWhitespace).reverse.dropWhile Char.isWhitespace).reverse

/-- Python s.startswith(p) on character lists: p is a prefix of s. -/
def startsWithL : (p s : List Char) → Bool
  | [], _ => true
  | _ :: _, [] => false
  | p :: ps, c :: cs => p = c && startsWithL ps cs

/-- The tuple of prefixes tested by generate_pdf: "1." through "7.". -/
def headingPrefixes : List String :=
  ["1.", "2.", "3.", "4.", "5.", "6.", "7."]

/-- Style a body line is rendered in: bold heading font or body font. -/
inductive LineStyle
  | heading
  | body
deriving DecidableEq

/-- The style decision of generate_pdf for one line of the report body:
line.strip().startswith(("1.", ..., "7.")). -/
def lineStyle (line : String) : LineStyle :=
  if headingPrefixes.any (fun p => startsWithL p.toList (stripL line.toList)) then
    LineStyle.heading
  else LineStyle.body

/-- The body loop of generate_pdf: clean the whole text, split on newlines,
and render each line in its decided style (each line cleaned once more when
printed). -/
def renderBodyLines (report_text : String) : List (LineStyle × String) :=
  ((clean_text report_text).splitOn "\n").map fun line => (lineStyle line, clean_text line)

/-- Modelled from the spec: a heading line begins, after stripping leading
whitespace, with "N." for N in 1 through 8. -/
def specHeadingPrefixes : List String :=
  ["1.", "2.", "3.", "4.", "5.", "6.", "7.", "8."]

/-- Modelled from the spec: the heading predicate with N ranging over 1..8. -/
def specIsHeading (line : String) : Bool :=
  specHeadingPrefixes.any (fun p => startsWithL p.toList (stripL line.toList))

/-- C6: the code renders the final mandated section heading
"8. Final Recommendation" in body style because its startswith tuple stops at
"7.", while the spec (and the fixed eight-section outline that
ReportWriterAgent demands of the generator) makes it a heading; sections 1-7
are rendered as headings as claimed. -/
theorem c6_heading_rule_misses_section8 :
    lineStyle "8. Final Recommendation" = LineStyle.body
    ∧ specIsHeading "8. Final Recommendation" = true
    ∧ lineStyle "7. Risks and Opportunities" = LineStyle.heading
    ∧ lineStyle "  3. KPIs" = LineStyle.heading
    ∧ lineStyle "Some body text" = LineStyle.body := by decide

/-! ### News gathering (ResearcherAgent.gather_news)

The two fetchers are external HTTP collaborators; gather_news is embedded as
a function of their outcomes (and of the presence of NEWSAPI_KEY in the
environment). The rss fetcher is deterministic for a fixed query, so its two
possible invocations in one call are modelled by the same outcome. -/

/-- The source field of ResearcherAgent: "auto", "newsapi" or "rss". -/
inductive NewsMode
  | auto
  | newsapi
  | rss
deriving DecidableEq

def modeName : NewsMode → String
  | NewsMode.auto => "auto"
  | NewsMode.newsapi => "newsapi"
  | NewsMode.rss => "rss"

/-- Outcomes of the external collaborators of one gather_news call. -/
structure NewsEnv where
  hasKey : Bool
  newsapiResult : Except String (List NewsItem)
  rssResult : Except String (List NewsItem)

/-- _fetch_news_newsapi: raises immediately when NEWSAPI_KEY is absent,
otherwise its outcome is that of the HTTP call. -/
def fetchNewsapi (env : NewsEnv) : Except String (List NewsItem) :=
  if env.hasKey then env.newsapiResult
  else Except.error "NEWSAPI_KEY not found in environment."

/-- ResearcherAgent.gather_news: resolve the mode, try the resolved source,
fall back to rss on any exception, and raise a RuntimeError naming the tried
mode and the first cause when the fallback also fails. -/
def gather_news (source : NewsMode) (env : NewsEnv) : Except String (List NewsItem) :=
  let mode := match source with
    | NewsMode.auto => if env.hasKey then NewsMode.newsapi else NewsMode.rss
    | m => m
  let firstTry := match mode with
    | NewsMode.newsapi => fetchNewsapi env
    | _ => env.rssResult
  match firstTry with
  | Except.ok items => Except.ok items
  | Except.error e =>
    match env.rssResult with
    | Except.ok items => Except.ok items
    | Except.error _ =>
        Except.error ("Failed to fetch news (tried " ++ modeName mode ++ "). Error: " ++ e)

/-- C7: in the default auto mode, gather_news returns the keyed primary
items when the key is present and the primary succeeds; returns the keyless
feed items when the key is absent or the primary raises while the feed
succeeds; and when both sources fail it raises an error naming the attempted
source and carrying the underlying cause (so the both-failed case is never a
silent empty list). -/
theorem c7_gather_news_fallback (env : NewsEnv) :
    (env.hasKey = true → ∀ items, env.newsapiResult = Except.ok items →
        gather_news NewsMode.auto env = Except.ok items)
    ∧ (∀ items, env.rssResult = Except.ok items →
        (env.hasKey = false → gather_news NewsMode.auto env = Except.ok items)
        ∧ (∀ e, env.newsapiResult = Except.error e →
            gather_news NewsMode.auto env = Except.ok items))
    ∧ (∀ e, env.rssResult = Except.error e →
        (env.hasKey = false →
          gather_news NewsMode.auto env
            = Except.error ("Failed to fetch news (tried rss). Error: " ++ e))
        ∧ (∀ e2, env.hasKey = true → env.newsapiResult = Except.error e2 →
          gather_news NewsMode.auto env
            = Except.error ("Failed to fetch news (tried newsapi). Error: " ++ e2))) := by
  refine ⟨?_, ?_, ?_⟩
  · intro hk items hok
    simp [gather_news, fetchNewsapi, hk, hok]
  · intro items hok
    constructor
    · intro hk
      simp [gather_news, fetchNewsapi, hk, hok]
    · intro e he
      cases hk : env.hasKey <;> simp [gather_news, fetchNewsapi, hk, he, hok]
  · intro e he
    constructor
    · intro hk
      simp [gather_news, fetchNewsapi, hk, he, modeName]
    · intro e2 hk he2
      simp [gather_news, fetchNewsapi, hk, he, he2, modeName]

/-- Witness for C7: with a key and a successful primary call the primary
items are returned. -/
theorem c7_witness :
    gather_news NewsMode.auto
        ⟨true, Except.ok [⟨some "t", some "u", none⟩], Except.error "down"⟩
      = Except.ok [⟨some "t", some "u", none⟩] :=
  (c7_gather_news_fallback
      ⟨true, Except.ok [⟨some "t", some "u", none⟩], Except.error "down"⟩).1
    rfl [⟨some "t", some "u", none⟩] rfl

/-! ### Stock data and indicators (utils/fetch_stock_data.py)

The downloaded frame is modelled by its Close column as exact rationals.
pandas rolling statistics with window n are NaN (modelled none) for the
first n - 1 points; rolling std is the sample standard deviation
(ddof = 1) of the trailing n values. -/

/-- Arithmetic mean of a list of rationals. -/
def mean (l : List ℚ) : ℚ := l.sum / l.length

/-- Sample variance (ddof = 1), as pandas rolling std squares it. -/
def sampleVar (l : List ℚ) : ℚ :=
  (l.map (fun x => (x - mean l) ^ 2)).sum / ((l.length : ℚ) - 1)

/-- The trailing window of n values ending at index i. -/
def windowAt (n : Nat) (xs : List ℚ) (i : Nat) : List ℚ :=
  (xs.take (i + 1)).drop (i + 1 - n)

/-- df["Close"].rolling(window=n).mean(). -/
def rollingMean (n : Nat) (xs : List ℚ) : List (Option ℚ) :=
  (List.range xs.length).map fun i =>
    if n ≤ i + 1 then some (mean (windowAt n xs i)) else none

/-- The squared rolling standard deviation: the trailing sample variance. -/
def rollingVar (n : Nat) (xs : List ℚ) : List (Option ℚ) :=
  (List.range xs.length).map fun i =>
    if n ≤ i + 1 then some (sampleVar (windowAt n xs i)) else none

/-- df["Close"].rolling(window=n).std(). -/
noncomputable def rollingStd (n : Nat) (xs : List ℚ) : List (Option ℝ) :=
  (rollingVar n xs).map (Option.map fun q : ℚ => Real.sqrt (q : ℝ))

/-- The frame produced by fetch_stock_data: the Close column plus the three
derived columns MA20, MA50 and Volatility. -/
structure StockFrame where
  close : List ℚ
  ma20 : List (Option ℚ)
  ma50 : List (Option ℚ)
  volatility : List (Option ℝ)

/-- fetch_stock_data: raises ValueError on an empty download, otherwise adds
MA20 = rolling 20 mean, MA50 = rolling 50 mean and Volatility = rolling
20 std of the Close column itself. -/
noncomputable def fetch_stock_data : List ℚ → Except String StockFrame
  | [] => Except.error "No stock data found"
  | c :: cs =>
      Except.ok
        { close := c :: cs
          ma20 := rollingMean 20 (c :: cs)
          ma50 := rollingMean 50 (c :: cs)
          volatility := rollingStd 20 (c :: cs) }

/-- Daily fractional returns of a price series: element k is
xs[k+1] / xs[k] - 1. -/
def dailyReturns (xs : List ℚ) : List ℚ :=
  List.zipWith (fun prev cur => cur / prev - 1) xs xs.tail

/-- Modelled from the spec: the Volatility column as the spec describes it,
the trailing 20-point standard deviation of the daily percentage return of
the close price, aligned to the close series (the trailing 20 returns ending
at close index i are elements i - 20 .. i - 1 of the return series, so the
value exists from close index 20 onward). -/
noncomputable def specVolatility (xs : List ℚ) : List (Option ℝ) :=
  (List.range xs.length).map fun i =>
    if 20 ≤ i then
      some (Real.sqrt ((sampleVar (windowAt 20 (dailyReturns xs) (i - 1)) : ℚ) : ℝ))
    else none

lemma rollingMean_get? (n : Nat) (xs : List ℚ) (i : Nat) (hi : i < xs.length) :
    (rollingMean n xs).get? i
      = some (if n ≤ i + 1 then some (mean (windowAt n xs i)) else none) := by
  unfold rollingMean
  rw [List.get?_map, List.get?_range hi]
  rfl

lemma rollingVar_get? (n : Nat) (xs : List ℚ) (i : Nat) (hi : i < xs.length) :
    (rollingVar n xs).get? i
      = some (if n ≤ i + 1 then some (sampleVar (windowAt n xs i)) else none) := by
  unfold rollingVar
  rw [List.get?_map, List.get?_range hi]
  rfl

lemma rollingStd_get? (n : Nat) (xs : List ℚ) (i : Nat) (hi : i < xs.length) :
    (rollingStd n xs).get? i
      = some (if n ≤ i + 1 then
          some (Real.sqrt ((sampleVar (windowAt n xs i) : ℚ) : ℝ)) else none) := by
  unfold rollingStd
  rw [List.get?_map, rollingVar_get? n xs i hi]
  by_cases h : n ≤ i + 1 <;> simp [h]

lemma specVolatility_get? (xs : List ℚ) (i : Nat) (hi : i < xs.length) :
    (specVolatility xs).get? i
      = some (if 20 ≤ i then
          some (Real.sqrt ((sampleVar (windowAt 20 (dailyReturns xs) (i - 1)) : ℚ) : ℝ))
        else none) := by
  unfold specVolatility
  rw [List.get?_map, List.get?_range hi]
  rfl

lemma fetch_stock_data_ok (close : List ℚ) (frame : StockFrame)
    (h : fetch_stock_data close = Except.ok frame) :
    frame = { close := close, ma20 := rollingMean 20 close,
              ma50 := rollingMean 50 close, volatility := rollingStd 20 close } := by
  cases close with
  | nil => exact absurd h (by simp [fetch_stock_data])
  | cons c cs =>
    simp only [fetch_stock_data, Except.ok.injEq] at h
    exact h.symm

/-- C5: in the frame produced by fetch_stock_data, at every in-range index
the MA20 and Volatility entries are the unavailable marker exactly when
fewer than 20 points have been seen, and the MA50 entry exactly when fewer
than 50 have; hence for a series shorter than 20 points MA20 and Volatility
are unavailable at every point (never zero-filled), and for a series of at
least 50 points MA50 is defined exactly from index 49 onward. -/
theorem c5_rolling_window_definedness (close : List ℚ) (frame : StockFrame)
    (h : fetch_stock_data close = Except.ok frame) (i : Nat) (hi : i < close.length) :
    (frame.ma20.get? i = some none ↔ i + 1 < 20)
    ∧ (frame.volatility.get? i = some none ↔ i + 1 < 20)
    ∧ (frame.ma50.get? i = some none ↔ i + 1 < 50) := by
  have hf := fetch_stock_data_ok close frame h
  have h20 : frame.ma20 = rollingMean 20 close := by rw [hf]
  have h50 : frame.ma50 = rollingMean 50 close := by rw [hf]
  have hv : frame.volatility = rollingStd 20 close := by rw [hf]
  refine ⟨?_, ?_, ?_⟩
  · rw [h20, rollingMean_get? 20 close i hi]
    by_cases hn : 20 ≤ i + 1 <;> simp [hn] <;> omega
  · rw [hv, rollingStd_get? 20 close i hi]
    by_cases hn : 20 ≤ i + 1 <;> simp [hn] <;> omega
  · rw [h50, rollingMean_get? 50 close i hi]
    by_cases hn : 50 ≤ i + 1 <;> simp [hn] <;> omega

/-- Witness for C5 at a concrete one-point series. -/
theorem c5_witness :
    (∃ frame, fetch_stock_data [(100 : ℚ)] = Except.ok frame
      ∧ ((frame.ma20.get? 0 = some none ↔ 0 + 1 < 20)
        ∧ (frame.volatility.get? 0 = some none ↔ 0 + 1 < 20)
        ∧ (frame.ma50.get? 0 = some none ↔ 0 + 1 < 50))) :=
  ⟨_, rfl, c5_rolling_window_definedness [(100 : ℚ)] _ rfl 0 (by decide)⟩

/-- A concrete 21-point close series alternating between 100 and 200. -/
def exClose : List ℚ :=
  [100, 200, 100, 200, 100, 200, 100, 200, 100, 200, 100,
   200, 100, 200, 100, 200, 100, 200, 100, 200, 100]

lemma exClose_code_var :
    (rollingVar 20 exClose).get? 20 = some (some (50000 / 19 : ℚ)) := by
  rw [rollingVar_get? 20 exClose 20 (by decide),
    if_pos (by norm_num : 20 ≤ 20 + 1),
    show windowAt 20 exClose 20
        = [200, 100, 200, 100, 200, 100, 200, 100, 200, 100,
           200, 100, 200, 100, 200, 100, 200, 100, 200, 100] from rfl]
  simp only [Option.some.injEq]
  norm_num [sampleVar, mean]

lemma exClose_spec_var :
    sampleVar (windowAt 20 (dailyReturns exClose) 19) = 45 / 76 := by
  have hdr : dailyReturns exClose
      = [1, -(1/2), 1, -(1/2), 1, -(1/2), 1, -(1/2), 1, -(1/2),
         1, -(1/2), 1, -(1/2), 1, -(1/2), 1, -(1/2), 1, -(1/2)] := by
    norm_num [dailyReturns, exClose]
  rw [hdr,
    show windowAt 20
        ([1, -(1/2), 1, -(1/2), 1, -(1/2), 1, -(1/2), 1, -(1/2),
          1, -(1/2), 1, -(1/2), 1, -(1/2), 1, -(1/2), 1, -(1/2)] : List ℚ) 19
      = [1, -(1/2), 1, -(1/2), 1, -(1/2), 1, -(1/2), 1, -(1/2),
         1, -(1/2), 1, -(1/2), 1, -(1/2), 1, -(1/2), 1, -(1/2)] from rfl]
  norm_num [sampleVar, mean]

/-- C3 counterexample: on the concrete 21-point series exClose, the
Volatility value at index 20 computed by fetch_stock_data (the rolling std
of the close price itself, variance 50000/19) differs from the trailing
20-point standard deviation of the daily percentage return (variance 45/76),
so the claim fails as stated. -/
theorem c3_counterexample :
    ∃ frame, fetch_stock_data exClose = Except.ok frame
      ∧ frame.volatility.get? 20 ≠ (specVolatility exClose).get? 20 := by
  refine ⟨_, rfl, ?_⟩
  show (rollingStd 20 exClose).get? 20 ≠ (specVolatility exClose).get? 20
  have h1 : (rollingStd 20 exClose).get? 20
      = some (some (Real.sqrt ((50000 / 19 : ℚ) : ℝ))) := by
    unfold rollingStd
    rw [List.get?_map, exClose_code_var]
    rfl
  have h2 : (specVolatility exClose).get? 20
      = some (some (Real.sqrt ((45 / 76 : ℚ) : ℝ))) := by
    rw [specVolatility_get? exClose 20 (by decide), if_pos (by norm_num : 20 ≤ 20),
      show (20 : Nat) - 1 = 19 from rfl, exClose_spec_var]
  rw [h1, h2]
  intro hcontra
  simp only [Option.some.injEq] at hcontra
  have hlt : ((45 / 76 : ℚ) : ℝ) < ((50000 / 19 : ℚ) : ℝ) := by
    exact_mod_cast (by norm_num : (45 / 76 : ℚ) < 50000 / 19)
  have hfull := Real.sqrt_lt_sqrt (by positivity) hlt
  rw [hcontra] at hfull
  exact lt_irrefl _ hfull

/-- C3 amended: the Volatility value computed at each point by
fetch_stock_data equals the trailing 20-point sample standard deviation of
the close price itself, not of its daily percentage return. -/
theorem c3_amended_volatility_of_close (close : List ℚ) (frame : StockFrame)
    (h : fetch_stock_data close = Except.ok frame) (i : Nat) (hi : i < close.length)
    (hw : 19 ≤ i) :
    frame.volatility.get? i
      = some (some (Real.sqrt ((sampleVar (windowAt 20 close i) : ℚ) : ℝ))) := by
  have hf := fetch_stock_data_ok close frame h
  have hv : frame.volatility = rollingStd 20 close := by rw [hf]
  rw [hv, rollingStd_get? 20 close i hi, if_pos (by omega : 20 ≤ i + 1)]

/-- Witness for the amended C3 at the concrete series exClose, index 20. -/
theorem c3_amended_witness :
    ∃ frame, fetch_stock_data exClose = Except.ok frame
      ∧ frame.volatility.get? 20
          = some (some (Real.sqrt ((sampleVar (windowAt 20 exClose 20) : ℚ) : ℝ))) :=
  ⟨_, rfl, c3_amended_volatility_of_close exClose _ rfl 20 (by decide) (by decide)⟩

/-! ### KPI extraction (extract_kpis in utils/fetch_stock_data.py) -/

/-- Rounding to four decimal places over the reals, for the Volatility KPI. -/
noncomputable def round4R (x : ℝ) : ℝ := (round (x * 10000) : ℤ) / 10000

/-- One row of the frame as extract_kpis reads it: the raw price fields and
the three derived columns, the latter NaN (none) when the window was short.
The defensive one-row-Series branch of safe_scalar never fires on scalar
fields, which is what rows of this model carry. -/
structure KRow where
  close : ℚ
  high : ℚ
  low : ℚ
  ma20 : Option ℚ
  ma50 : Option ℚ
  volatility : Option ℝ

/-- The KPI snapshot dict: every field optional, none being the unavailable
marker (Python None). -/
structure KPIs where
  current_price : Option ℚ
  day_high : Option ℚ
  day_low : Option ℚ
  ma20 : Option ℚ
  ma50 : Option ℚ
  volatility : Option ℝ

/-- safe_scalar on an optional rational: None exactly on NaN, otherwise the
value rounded to four decimals. -/
def safe_scalar_q (v : Option ℚ) : Option ℚ := v.map round4

/-- safe_scalar on an optional real. -/
noncomputable def safe_scalar_r (v : Option ℝ) : Option ℝ := v.map round4R

/-- extract_kpis: an absent or empty frame yields the all-unavailable
snapshot without touching any row; otherwise the last row is read through
safe_scalar. -/
noncomputable def extract_kpis : Option (List KRow) → KPIs
  | none => ⟨none, none, none, none, none, none⟩
  | some [] => ⟨none, none, none, none, none, none⟩
  | some (r :: rs) =>
      let latest := rs.getLastD r
      ⟨some (round4 latest.close), some (round4 latest.high), some (round4 latest.low),
        safe_scalar_q latest.ma20, safe_scalar_q latest.ma50, safe_scalar_r latest.volatility⟩

/-- C4: an empty or missing price frame yields a KPI snapshot whose every
field (current_price, day_high, day_low, ma20, ma50, volatility) is the
unavailable marker, and the extraction returns that snapshot rather than
raising. (An empty download is separately fatal inside fetch_stock_data,
matching the spec rule that total absence of price rows is fatal while the
KPI stage recovers locally.) -/
theorem c4_empty_frame_kpis (df : Option (List KRow))
    (h : df = none ∨ df = some []) :
    extract_kpis df = ⟨none, none, none, none, none, none⟩ := by
  rcases h with h | h <;> rw [h] <;> rfl

/-- Witness for C4 at the missing frame. -/
theorem c4_witness : extract_kpis none = ⟨none, none, none, none, none, none⟩ :=
  c4_empty_frame_kpis none (Or.inl rfl)

/-! ### The orchestrator (orchestrator.py)

Orchestrator.run is embedded as a function of the outcomes of its external
collaborators. Step 2 of the source binds the single dict returned by
DataAnalystAgent.analyze_stock to the pattern kpis, chart_path; iterating a
Python dict yields its keys, so this is a tuple unpack of the key list of
the dict into exactly two names. -/

/-- The fundamentals dict of fetch_fundamentals: every field optional. -/
structure Fundamentals where
  market_cap : Option ℚ
  pe_ratio : Option ℚ
  forward_pe : Option ℚ
  eps : Option ℚ
  beta : Option ℚ
  book_value : Option ℚ
  dividend_yield : Option ℚ
  sector : Option String
  industry : Option String

/-- The dict returned by DataAnalystAgent.analyze_stock. -/
structure AnalyzeStockResult where
  dataframe : StockFrame
  kpis : KPIs
  fundamentals : Fundamentals
  chart_path : String

/-- The keys of the analyze_stock dict, in insertion order. -/
def analyzeStockKeys : List String := ["dataframe", "kpis", "fundamentals", "chart_path"]

/-- Python tuple unpack of an iterable into exactly two names: raises
ValueError unless the iterable has exactly two elements. -/
def unpack2 {α : Type} : List α → Except String (α × α)
  | [a, b] => Except.ok (a, b)
  | [] => Except.error "not enough values to unpack (expected 2, got 0)"
  | [_] => Except.error "not enough values to unpack (expected 2, got 1)"
  | _ => Except.error "too many values to unpack (expected 2)"

/-- The success dict built by the return statement of Orchestrator.run. The
kpis and chart_path fields hold whatever the step-2 unpack bound (key
strings, had the unpack succeeded). -/
structure RunSuccess where
  kpis : String
  chart_path : String
  news_items : List NewsItem
  sentiment_summary : SentimentSummary
  report_text : String
  pdf_path : String

/-- The value returned by Orchestrator.run: the success dict or the
single-field error dict built in the except handler. -/
inductive RunResult
  | success (s : RunSuccess)
  | failure (error : String)

/-- The key set of the returned Python dict. -/
def resultKeys : RunResult → List String
  | RunResult.success _ =>
      ["kpis", "chart_path", "news_items", "sentiment_summary", "report_text", "pdf_path"]
  | RunResult.failure _ => ["error"]

/-- Outcomes of the external collaborators of one Orchestrator.run call. -/
structure OrchEnv where
  newsEnv : NewsEnv
  analyzeStockResult : Except String AnalyzeStockResult
  writeReportResult : Except String String
  generatePdfResult : Except String String

/-- Orchestrator.run: the four steps in source order inside the try block,
with every exception caught by the top-level handler and turned into the
error dict. The researcher is constructed with the default source "auto". -/
def run (env : OrchEnv) : RunResult :=
  let pipeline : Except String RunSuccess := do
    let news_items ← gather_news NewsMode.auto env.newsEnv
    let sentiment_summary := analyze_sentiment_summary news_items
    let _d ← env.analyzeStockResult
    let kc ← unpack2 analyzeStockKeys
    let report_text ← env.writeReportResult
    let pdf_path ← env.generatePdfResult
    pure ⟨kc.1, kc.2, news_items, sentiment_summary, report_text, pdf_path⟩
  match pipeline with
  | Except.ok s => RunResult.success s
  | Except.error e => RunResult.failure e

lemma run_always_failure (env : OrchEnv) : ∃ e, run env = RunResult.failure e := by
  unfold run
  rcases h1 : gather_news NewsMode.auto env.newsEnv with e1 | items
  · exact ⟨e1, by simp [h1, Bind.bind, Except.bind]⟩
  · rcases h2 : env.analyzeStockResult with e2 | d
    · exact ⟨e2, by simp [h1, h2, Bind.bind, Except.bind]⟩
    · exact ⟨"too many values to unpack (expected 2)",
        by simp [h1, h2, Bind.bind, Except.bind, unpack2, analyzeStockKeys]⟩

/-- C2: for every environment, Orchestrator.run returns the error dict and
the success dict is unreachable: step 2 unpacks the key list of the
four-key dict returned by analyze_stock into two names, which always raises
ValueError inside the try block, unless an earlier stage already raised. -/
theorem c2_success_unreachable (env : OrchEnv) :
    (∃ e, run env = RunResult.failure e) ∧ ∀ s, run env ≠ RunResult.success s := by
  obtain ⟨e, he⟩ := run_always_failure env
  exact ⟨⟨e, he⟩, fun s hs => by rw [he] at hs; exact RunResult.noConfusion hs⟩

/-- C1: every value returned by Orchestrator.run is either a failure dict
whose only key is error, or a success dict carrying all of the keys kpis,
fundamentals, chart_path, news_items, sentiment_summary, report_text and the
document path - never a mixture and never a partially populated success
dict. On this code the invariant holds because only the failure branch is
reachable (the success dict, which would in fact lack the fundamentals key,
is dead code). -/
theorem c1_result_record_shape (env : OrchEnv) :
    resultKeys (run env) = ["error"]
    ∨ (∃ s, run env = RunResult.success s
        ∧ ∀ k ∈ ["kpis", "fundamentals", "chart_path", "news_items",
                 "sentiment_summary", "report_text", "pdf_path"],
            k ∈ resultKeys (run env)) := by
  obtain ⟨e, he⟩ := run_always_failure env
  exact Or.inl (by rw [he]; rfl)

end FinAgent
